import Mathlib

/-
Verification of the lexical-error-handler core (src/base.py) against its
natural-language specification.  The Python source is shallowly embedded:
pure predicates become Bool-valued Lean functions, Python exceptions become
an explicit `Except PyExn` result, and the relevant fragments of Python's
builtin parsers (int(), float(), str.isdigit, str.split, str.strip) are
modelled over ASCII.  Corners of the builtins that no lexeme of this
development exercises (unicode digit categories, underscore digit
separators, inf and nan spellings, binary64 rounding of decimal literals)
are noted where they are simplified.
-/

namespace LexEH

/-! ### Character classes (ASCII codes, mirroring Python's `string` module) -/

/-- Model of `str.isdigit` on a single character, ASCII fragment: '0'..'9'
(codes 48..57). -/
def pyIsDigit (c : Char) : Bool := 48 ≤ c.toNat && c.toNat ≤ 57

/-- ASCII uppercase letter, codes 65..90. -/
def isAsciiUpper (c : Char) : Bool := 65 ≤ c.toNat && c.toNat ≤ 90

/-- ASCII lowercase letter, codes 97..122. -/
def isAsciiLower (c : Char) : Bool := 97 ≤ c.toNat && c.toNat ≤ 122

/-- Member of Python's `string.ascii_letters`. -/
def isAsciiLetter (c : Char) : Bool := isAsciiUpper c || isAsciiLower c

/-- First character of the identifier regex `[A-Za-z_]` (underscore is 95). -/
def isIdStart (c : Char) : Bool := isAsciiLetter c || c.toNat = 95

/-- Body character of the identifier regex `[A-Za-z0-9_]`. -/
def isIdBody (c : Char) : Bool := isIdStart c || pyIsDigit c

/-- Member of Python's `string.whitespace`: space, tab, newline, carriage
return, vertical tab, form feed. -/
def isWs (c : Char) : Bool :=
  c.toNat = 32 || c.toNat = 9 || c.toNat = 10 || c.toNat = 13 ||
  c.toNat = 11 || c.toNat = 12

/-- Member of Python's `string.punctuation` with `'.'` (code 46) removed,
as built by `string.punctuation.replace('.', '')`: the ASCII printable
non-alphanumeric non-space characters, codes 33..47, 58..64, 91..96,
123..126, minus code 46. -/
def isPyPunctNoDot (c : Char) : Bool :=
  (((33 ≤ c.toNat && c.toNat ≤ 47) || (58 ≤ c.toNat && c.toNat ≤ 64)) ||
   ((91 ≤ c.toNat && c.toNat ≤ 96) || (123 ≤ c.toNat && c.toNat ≤ 126))) &&
  !(c.toNat = 46)

/-- The character set `invalid_chars = string.ascii_letters +
string.punctuation.replace('.', '') + string.whitespace` used by
`Error.__is_num_ill_formed`. -/
def isInvalidNumChar (c : Char) : Bool :=
  isAsciiLetter c || isPyPunctNoDot c || isWs c

/-! ### Fixed token tables

The Python source stores these as `set`s; iteration order of a Python set
is unspecified.  They are modelled as lists in declaration order; every
result proved below that iterates over a table is independent of that
order. -/

/-- `KEYWORDS` of src/base.py (the revision under src/ does not contain
`in`). -/
def KEYWORDS : List String :=
  ["if", "else", "while", "for", "return", "int", "float", "char", "class", "def"]

/-- `OPERATORS` of src/base.py. -/
def OPERATORS : List String :=
  ["+", "-", "*", "/", "=", "==", "!=", "<", ">", "<=", ">="]

/-- `PUNCTUATIONS` of src/base.py (opening and closing brace written by
character code). -/
def PUNCTUATIONS : List String :=
  [";", ",", "(", ")", "\x7b", "\x7d"]

/-! ### Levenshtein edit distance

The source fills an (m+1) x (n+1) table `dp` with `dp[i][0] = i`,
`dp[0][j] = j` and
`dp[i][j] = min(dp[i-1][j] + 1, dp[i][j-1] + 1, dp[i-1][j-1] + cost)`,
`cost = 0 if a[i-1] == b[j-1] else 1`, returning `dp[m][n]`.  The table is
a memoisation of the recurrence below on the pair of prefix lengths
`(i, j)`; the embedding computes the same recurrence with a structural
fuel argument (any fuel at least `i + j` gives the table value). -/

/-- The edit-distance recurrence of the source's `dp` table: `levAuxF a b
f i j` is `dp[i][j]` for the strings `a`, `b`, provided `i + j ≤ f`. -/
def levAuxF (a b : List Char) : Nat → Nat → Nat → Nat
  | _, 0, j => j
  | _, i+1, 0 => i + 1
  | 0, _+1, _+1 => 0
  | f+1, i+1, j+1 =>
    let cost : Nat := if a.getD i ' ' = b.getD j ' ' then 0 else 1
    min (levAuxF a b f i (j+1) + 1)
      (min (levAuxF a b f (i+1) j + 1) (levAuxF a b f i j + cost))

/-- `levenshtein(a, b)` of src/base.py: the bottom-right cell `dp[m][n]`. -/
def levenshtein (a b : String) : Nat :=
  levAuxF a.data b.data (a.data.length + b.data.length) a.data.length b.data.length

/-- `is_similar_to_keyword(lexeme, max_distance=1)` of src/base.py. -/
def is_similar_to_keyword (s : String) : Bool :=
  KEYWORDS.any fun kw => decide (levenshtein s kw ≤ 1)

/-! ### Identifier pattern -/

/-- Full match of the regex `^[A-Za-z_][A-Za-z0-9_]*$`.  (`re.match` with a
final `$` would also accept one trailing newline; lexemes are produced by
`str.split` and never contain one.) -/
def matchIdPattern (s : String) : Bool :=
  match s.data with
  | [] => false
  | c :: cs => isIdStart c && cs.all isIdBody

/-- `Lexer.is_identifier` of src/base.py: identifier pattern, then not an
exact keyword, then not within edit distance 1 of a keyword, then shorter
than 15 characters (the inner `is_id_too_long` uses the literal 15). -/
def is_identifier (s : String) : Bool :=
  if matchIdPattern s then
    if s ∈ KEYWORDS then false
    else if is_similar_to_keyword s then false
    else if 15 ≤ s.length then false
    else true
  else false

/-! ### Models of Python's numeric builtins -/

/-- Strip Python whitespace from both ends (the implicit strip performed by
`int()` and `float()` on string arguments). -/
def stripPyWs (cs : List Char) : List Char :=
  ((cs.dropWhile isWs).reverse.dropWhile isWs).reverse

/-- Decimal value of a string of ASCII digits. -/
def digitsToNat (ds : List Char) : Nat :=
  ds.foldl (fun n c => n * 10 + (c.toNat - 48)) 0

/-- Model of `int(s)` for string `s`: optional surrounding whitespace,
optional sign, one or more ASCII digits.  (Underscore digit separators and
non-ASCII digits accepted by CPython are not modelled; no lexeme
considered here contains them.) -/
def pyIntParse (s : String) : Option Int :=
  match stripPyWs s.data with
  | [] => none
  | c :: cs =>
    if c = '-' then
      if !cs.isEmpty && cs.all pyIsDigit then some (-(digitsToNat cs : Int)) else none
    else if c = '+' then
      if !cs.isEmpty && cs.all pyIsDigit then some ((digitsToNat cs : Int)) else none
    else if (c :: cs).all pyIsDigit then some ((digitsToNat (c :: cs) : Int)) else none

/-- `Lexer.is_integer` of src/base.py: `int(num)` succeeds. -/
def is_integer (s : String) : Bool := (pyIntParse s).isSome

/-- Mantissa part of a float literal: `digits [. digits]` or `. digits`.
Returns the digit string's value, the number of fractional digits, and the
unconsumed rest. -/
def parseMant (cs : List Char) : Option (Nat × Nat × List Char) :=
  let d1 := cs.takeWhile pyIsDigit
  let r1 := cs.dropWhile pyIsDigit
  match r1 with
  | c :: r2 =>
    if c = '.' then
      let d2 := r2.takeWhile pyIsDigit
      let r3 := r2.dropWhile pyIsDigit
      if d1.isEmpty && d2.isEmpty then none
      else some (digitsToNat (d1 ++ d2), d2.length, r3)
    else if d1.isEmpty then none else some (digitsToNat d1, 0, r1)
  | [] => if d1.isEmpty then none else some (digitsToNat d1, 0, r1)

/-- Exponent part of a float literal: nothing, or `(e|E) [sign] digits`. -/
def parseExp (cs : List Char) : Option Int :=
  match cs with
  | [] => some 0
  | c :: rest =>
    if c = 'e' || c = 'E' then
      match rest with
      | [] => none
      | d :: ds =>
        if d = '-' then
          if !ds.isEmpty && ds.all pyIsDigit then some (-(digitsToNat ds : Int)) else none
        else if d = '+' then
          if !ds.isEmpty && ds.all pyIsDigit then some ((digitsToNat ds : Int)) else none
        else if (d :: ds).all pyIsDigit then some ((digitsToNat (d :: ds) : Int)) else none
    else none

/-- Model of `float(s)` for string `s`: optional surrounding whitespace and
sign, then `digits [. digits] | . digits`, then an optional exponent.  The
result `(m, e)` denotes the exact decimal value `m * 10 ^ e`; rounding to
binary64 is not modelled (no comparison made below is within rounding
distance of its bound), and the `inf`, `infinity`, `nan` spellings and
underscore separators are not modelled (every use below first requires a
`'.'` or a digit-only shape, which those spellings fail). -/
def pyFloatParse (s : String) : Option (Int × Int) :=
  match stripPyWs s.data with
  | [] => none
  | c :: cs =>
    let signBody : Bool × List Char :=
      if c = '-' then (true, cs) else if c = '+' then (false, cs) else (false, c :: cs)
    match parseMant signBody.2 with
    | none => none
    | some (m, frac, rest) =>
      match parseExp rest with
      | none => none
      | some e =>
        some ((if signBody.1 then -(m : Int) else (m : Int)), e - (frac : Int))

/-- `Lexer.is_float` of src/base.py: `float(num)` succeeds and the string
contains a decimal point. -/
def is_float (s : String) : Bool :=
  (pyFloatParse s).isSome && s.data.contains '.'

/-- Model of `str.isdigit` for a whole string: non-empty and all ASCII
digits. -/
def pyIsdigitStr (s : String) : Bool :=
  !s.data.isEmpty && s.data.all pyIsDigit

/-! ### Small string helpers -/

/-- `s.startswith(c)` for a single character `c`: first character is `c`. -/
def headIs (s : String) (c : Char) : Bool :=
  match s.data with
  | [] => false
  | a :: _ => a = c

/-- `s.endswith(c)` / `s[-1] == c` for a single character `c`. -/
def lastIs (s : String) (c : Char) : Bool :=
  match s.data.getLast? with
  | none => false
  | some a => a = c

/-- `s.strip(c)` for a single character `c`: remove every leading and
every trailing occurrence of `c`. -/
def pyStripChar (c : Char) (s : String) : String :=
  String.mk (((s.data.dropWhile (· = c)).reverse.dropWhile (· = c)).reverse)

/-! ### Python exceptions and tokens -/

/-- The exceptions the embedded code can raise: indexing a sequence out of
range, indexing a list with a string, `list.index` on a missing element,
and reading a never-assigned local. -/
inductive PyExn where
  | indexError
  | typeError
  | valueError
  | nameError
deriving DecidableEq

deriving instance DecidableEq for Except

/-- Token kinds `TT_kw`, `TT_lit`, `TT_id`, `TT_sepr`, `TT_op`,
`TT_float_op`, `TT_int_op` of src/base.py. -/
inductive TokenKind where
  | kw
  | lit
  | id
  | sepr
  | op
  | floatOp
  | intOp
deriving DecidableEq

/-- Token payloads.  `gen_tokens` always supplies a value: a string, the
result of `int(...)`, or the result of `float(...)`.  The binary64 value
of `float(...)` is not modelled; a float token carries the source text it
was parsed from. -/
inductive TokVal where
  | str (s : String)
  | intv (n : Int)
  | floatRaw (s : String)
deriving DecidableEq

/-- The `Token` class of src/base.py. -/
structure Token where
  name : TokenKind
  value : TokVal
deriving DecidableEq

/-! ### Error detection (`class Error`) -/

/-- `Error.__is_id_too_long`: identifier shape, not keyword-similar, and
length at least `MAX_ID_LENGTH = 15`. -/
def is_id_too_long (s : String) : Bool :=
  (matchIdPattern s && !is_similar_to_keyword s) && decide (15 ≤ s.length)

/-- Exact value of `np.finfo(np.float32).max`, the largest finite binary32
value `(2 - 2 ^ (-23)) * 2 ^ 127`, as an integer. -/
def MAX_FLOAT32_NUM : Nat := 340282346638528859811704183484516925440

/-- Whether the decimal value `m * 10 ^ e` lies outside
`[MIN_FLOAT, MAX_FLOAT]`, i.e. has absolute value above
`MAX_FLOAT32_NUM`. -/
def floatExceeds (m e : Int) : Bool :=
  if 0 ≤ e then decide (MAX_FLOAT32_NUM < m.natAbs * 10 ^ e.toNat)
  else decide (MAX_FLOAT32_NUM * 10 ^ (-e).toNat < m.natAbs)

/-- `Error.__is_num_exceeding_length`: a parsed float outside the float32
range, or a parsed int outside `[-32768, 32767]` (float checked first). -/
def is_num_exceeding (s : String) : Bool :=
  let isF := is_float s
  let isI := is_integer s
  if isF || isI then
    if isF then
      match pyFloatParse s with
      | some (m, e) => floatExceeds m e
      | none => false
    else if isI then
      match pyIntParse s with
      | some n => decide (n < -32768) || decide (32767 < n)
      | none => false
    else false
  else false

/-- The character loop of `Error.__is_num_ill_formed`: the decimal-point
counter is incremented first, then the character is tested against
`invalid_chars` and the counter against 2 (with `==`), returning early on
a hit. -/
def numIllLoop : List Char → Nat → Bool
  | [], _ => false
  | c :: cs, count =>
    if isInvalidNumChar c || (if c = '.' then count + 1 else count) = 2 then true
    else numIllLoop cs (if c = '.' then count + 1 else count)

/-- `Error.__is_num_ill_formed`: no digit at all yields `False`; otherwise
the character loop above starting with a zero decimal-point count. -/
def is_num_ill_formed (s : String) : Bool :=
  if s.data.any pyIsDigit then numIllLoop s.data 0 else false

/-- `Error.__is_string_ill_formed`: `error[0]` raises `IndexError` on the
empty string; otherwise the lexeme is string-like when either end is a
quote, and then ill-formed when shorter than 2 characters or when the two
ends differ. -/
def is_string_ill_formed (s : String) : Except PyExn Bool :=
  match s.data with
  | [] => .error .indexError
  | c :: cs =>
    let last := cs.getLastD c
    let isStr := (c = '"' || c = '\'') || (last = '"' || last = '\'')
    .ok (if isStr then
           (if (c :: cs).length < 2 then true
            else if c ≠ last then true else false)
         else false)

/-- `Error.detect`: the four checks in fixed priority order.  The first
argument is the instance's current `error_type` (the class attribute
starts as the empty string); when no check fires, `error_type` is left
unchanged and returned.  The returned string is also the instance's new
`error_type`. -/
def detect (error_type : String) (lexeme : String) : Except PyExn String :=
  if is_id_too_long lexeme then .ok "Identifier exceeds 15 characters"
  else if is_num_exceeding lexeme then .ok "Numeric type exceeds defined range"
  else
    match is_string_ill_formed lexeme with
    | .error e => .error e
    | .ok true => .ok "Ill-formed string literal"
    | .ok false =>
      if is_num_ill_formed lexeme then .ok "Ill-formed numeric type"
      else .ok error_type

/-! ### Error recovery (`Error.recover`) -/

/-- `Error.__is_other_error`: the error kinds not fixable at phrase
level. -/
def is_other_error (s : String) : Bool :=
  is_id_too_long s || is_num_exceeding s || is_num_ill_formed s

/-- The panic-mode scan of `Error.recover`: the first index `i` strictly
after `start` with `lexemes[i] == ';'` and `i + 1 < len(lexemes)`; a
trailing semicolon or none at all yields no index. -/
def findRecoverySemi (lexemes : List String) (start : Nat) : Option Nat :=
  (List.range lexemes.length).find? fun i =>
    if start < i ∧ lexemes.getD i "" = ";" ∧ i + 1 < lexemes.length then true else false

/-- `len(set(a) & set(b))` of the `shared_chars` helper: the number of
distinct characters of `a` that also occur in `b`. -/
def sharedChars (a b : String) : Nat :=
  ((a.data.eraseDups).filter fun c => b.data.contains c).length

/-- The keyword-misspelling branch of `Error.recover`: scan the keyword
table keeping the keyword sharing the most characters (strictly more than
the best so far, starting from -1, so the scan order breaks ties; every
result proved below has a unique maximum or returns the lexeme
unchanged).  A lexeme no longer than the winner is replaced only when it
shares at least 2 characters; a longer lexeme is always replaced;
otherwise the lexeme is returned unchanged. -/
def keyword_repair (lexeme : String) : String :=
  let best :=
    KEYWORDS.foldl
      (fun (acc : Option String × Int) kw =>
        let shared : Int := (sharedChars lexeme kw : Nat)
        if acc.2 < shared then (some kw, shared) else acc)
      (none, -1)
  match best.1 with
  | some closest =>
    if lexeme.length ≤ closest.length then
      if 2 ≤ best.2 then closest else lexeme
    else closest
  | none => lexeme

/-- The ill-formed-string branch of `Error.recover`: pick the quote
character from whichever end already has a double quote, else from
whichever end has a single quote (were neither quoted, `quote_char` would
be unbound and reading it would raise `NameError`; the branch is only
entered on string-like lexemes).  Prepend the quote if the first character
differs from it, then append it if the last character of the (possibly
prepended) lexeme differs from it. -/
def quote_repair (lexeme : String) : Except PyExn String :=
  if headIs lexeme '"' || lastIs lexeme '"' then
    let r1 := if !headIs lexeme '"' then String.mk ('"' :: lexeme.data) else lexeme
    let r2 := if !lastIs r1 '"' then String.mk (r1.data ++ ['"']) else r1
    .ok r2
  else if headIs lexeme '\'' || lastIs lexeme '\'' then
    let r1 := if !headIs lexeme '\'' then String.mk ('\'' :: lexeme.data) else lexeme
    let r2 := if !lastIs r1 '\'' then String.mk (r1.data ++ ['\'']) else r1
    .ok r2
  else .error .nameError

/-- What `Error.recover` can return: `None`, an `int` index, or a `str`
lexeme (the original or a repaired one). -/
inductive RecoverRet where
  | none
  | idx (i : Nat)
  | str (s : String)
deriving DecidableEq

/-- `Error.recover(lexeme, lexemes)`.  Panic mode for the non-phrase-level
error kinds: with more than one semicolon present, return the index of the
first non-final semicolon after the lexeme's first occurrence
(`lexemes.index` raises `ValueError` off a missing element), else `None`.
Phrase level otherwise: repair an ill-formed string, else try the keyword
repair when the lexeme is not a keyword, and return the resulting string
(`return lexeme` reached on every phrase-level path). -/
def recover (lexeme : String) (lexemes : List String) : Except PyExn RecoverRet :=
  if is_other_error lexeme then
    if 1 < lexemes.count ";" then
      match lexemes.findIdx? (· = lexeme) with
      | some start =>
        match findRecoverySemi lexemes start with
        | some i => .ok (.idx i)
        | none => .ok .none
      | none => .error .valueError
    else .ok .none
  else
    match is_string_ill_formed lexeme with
    | .error e => .error e
    | .ok true =>
      match quote_repair lexeme with
      | .error e => .error e
      | .ok r => .ok (.str r)
    | .ok false =>
      if lexeme ∈ KEYWORDS then .ok (.str lexeme)
      else .ok (.str (keyword_repair lexeme))

/-! ### The scanner (`Lexer.gen_tokens`) -/

/-- `Lexer.is_func_call`: the regex
`^([A-Za-z_][A-Za-z0-9_]*)\((.*)\)$` — a maximal identifier prefix, an
opening parenthesis, then everything up to a final closing parenthesis
(the dot of the regex excludes a newline; lexemes never contain one, and
the guard keeps the embedding exact). -/
def is_func_call (s : String) : Option (String × String) :=
  match s.data with
  | [] => none
  | c :: cs =>
    if isIdStart c then
      match cs.dropWhile isIdBody with
      | p :: rest =>
        if p = '(' then
          match rest.getLast? with
          | some q =>
            if q = ')' then
              if (rest.dropLast).all (· ≠ '\n') then
                some (String.mk (c :: cs.takeWhile isIdBody), String.mk rest.dropLast)
              else none
            else none
          | none => none
        else none
      | [] => none
    else none

/-- The parameter check inside the function-call branch of `gen_tokens`:
string literal, integer, float, identifier, in that order, else no token
(the silent `pass`). -/
def classifyParam (params : String) : Option Token :=
  if headIs params '"' && lastIs params '"' then
    some ⟨.lit, .str (pyStripChar '"' params)⟩
  else if pyIsdigitStr params then
    some ⟨.intOp, .intv ((digitsToNat params.data : Nat) : Int)⟩
  else if is_float params then
    some ⟨.floatOp, .floatRaw params⟩
  else if is_identifier params then
    some ⟨.id, .str params⟩
  else none

/-- The ordered bare-lexeme branch chain of `gen_tokens`: keyword,
identifier, operator, punctuation, digit string, float, double-quoted
string literal; `none` means the lexeme falls to the error handler. -/
def classifyBare (lexeme : String) : Option Token :=
  if lexeme ∈ KEYWORDS then some ⟨.kw, .str lexeme⟩
  else if is_identifier lexeme then some ⟨.id, .str lexeme⟩
  else if lexeme ∈ OPERATORS then some ⟨.op, .str lexeme⟩
  else if lexeme ∈ PUNCTUATIONS then some ⟨.sepr, .str lexeme⟩
  else if pyIsdigitStr lexeme then some ⟨.intOp, .intv ((digitsToNat lexeme.data : Nat) : Int)⟩
  else if is_float lexeme then some ⟨.floatOp, .floatRaw lexeme⟩
  else if headIs lexeme '"' && lastIs lexeme '"' then
    some ⟨.lit, .str (pyStripChar '"' lexeme)⟩
  else none

/-- The error branch of `gen_tokens`: a fresh `Error()` (so `error_type`
is the empty string), `detect`, the printing `report` (no effect
modelled), then `recover`.  A `None` result is passed over; an `int`
result executes `lexeme = lexemes[corrected_lexeme]`, which re-binds the
loop variable without affecting the iteration or emitting anything; a
`str` result makes that same statement index the list with a string,
raising `TypeError`.  The two token-emitting `elif` branches that follow
in the source are unreachable (their guard is the negation of the
previous one). -/
def doError (lexeme : String) (lexemes : List String) : Except PyExn (List Token) :=
  match detect "" lexeme with
  | .error e => .error e
  | .ok _ =>
    match recover lexeme lexemes with
    | .error e => .error e
    | .ok .none => .ok []
    | .ok (.idx i) => if i < lexemes.length then .ok [] else .error .indexError
    | .ok (.str _) => .error .typeError

/-- One iteration of the `for lexeme in lexemes` loop of `gen_tokens`:
the function-call branch (identifier, `(`, optional parameter token, `)`),
else the bare-lexeme chain, else the error branch. -/
def processLexeme (lexemes : List String) (lexeme : String) : Except PyExn (List Token) :=
  match is_func_call lexeme with
  | some (fname, params) =>
    .ok ([⟨.id, .str fname⟩, ⟨.sepr, .str "("⟩] ++ (classifyParam params).toList ++
         [⟨.sepr, .str ")"⟩])
  | none =>
    match classifyBare lexeme with
    | some t => .ok [t]
    | none => doError lexeme lexemes

/-- Run the loop body over the remaining lexemes, concatenating the
emitted tokens; an exception aborts the whole call. -/
def scanAll (lexemes : List String) : List String → Except PyExn (List Token)
  | [] => .ok []
  | lx :: rest =>
    match processLexeme lexemes lx with
    | .error e => .error e
    | .ok ts =>
      match scanAll lexemes rest with
      | .error e => .error e
      | .ok ts' => .ok (ts ++ ts')

/-- Model of `self.text.strip().split()`: the maximal whitespace-free
words of the text (Python's no-argument `split`; the preceding `strip` is
subsumed). -/
def wordsAux : List Char → List Char → List String
  | [], acc => if acc.isEmpty then [] else [String.mk acc.reverse]
  | c :: cs, acc =>
    if isWs c then
      if acc.isEmpty then wordsAux cs [] else String.mk acc.reverse :: wordsAux cs []
    else wordsAux cs (c :: acc)

/-- `text.strip().split()`. -/
def pySplit (s : String) : List String := wordsAux s.data []

/-- `Lexer.gen_tokens` on the lexer's text: split into lexemes and run the
scan loop. -/
def gen_tokens (text : String) : Except PyExn (List Token) :=
  scanAll (pySplit text) (pySplit text)

/-! ### The spec's reading of IllFormedNumber (for comparison with the
source's `is_num_ill_formed`) -/

/-- Modelled from the spec's words for the IllFormedNumber condition:
"lexeme contains at least one digit AND (contains any character outside
`[0-9.]` that is not whitespace — i.e., a letter or disallowed
punctuation — OR contains two or more decimal points)". -/
def specIllFormedNumber (s : String) : Bool :=
  s.data.any pyIsDigit &&
    (s.data.any (fun c => !(pyIsDigit c || c = '.') && !isWs c) ||
     decide (2 ≤ s.data.count '.'))

/-- Domain predicate for the signed-integer claim: a leading '-' or '+'
sign followed by one or more digits. -/
def isSignDigits (s : String) : Bool :=
  match s.data with
  | [] => false
  | c :: ds => (c = '-' || c = '+') && (!ds.isEmpty && ds.all pyIsDigit)

/-! ### Lemmas about the edit distance -/

/-- The `dp` recurrence is symmetric in its two strings (the cell `(i, j)`
for `(a, b)` equals the cell `(j, i)` for `(b, a)`), for any sufficient
fuel. -/
theorem levAuxF_symm (a b : List Char) :
    ∀ f i j, i + j ≤ f → levAuxF a b f i j = levAuxF b a f j i := by
  intro f
  induction f with
  | zero =>
    intro i j h
    obtain ⟨rfl, rfl⟩ : i = 0 ∧ j = 0 := by omega
    rfl
  | succ f ih =>
    rintro (_ | i) (_ | j) h
    · rfl
    · rfl
    · rfl
    · simp only [levAuxF]
      rw [ih i (j + 1) (by omega), ih (i + 1) j (by omega), ih i j (by omega)]
      by_cases hab : a.getD i ' ' = b.getD j ' '
      · rw [if_pos hab, if_pos hab.symm]
        omega
      · rw [if_neg hab, if_neg fun hh => hab hh.symm]
        omega

/-- The `dp` recurrence vanishes on the diagonal when both strings are the
same, for any sufficient fuel. -/
theorem levAuxF_self (a : List Char) :
    ∀ i f, i + i ≤ f → levAuxF a a f i i = 0 := by
  intro i
  induction i with
  | zero =>
    intro f h
    cases f <;> rfl
  | succ i ih =>
    rintro (_ | f) h
    · omega
    · simp only [levAuxF]
      rw [ih f (by omega)]
      simp only [if_true]
      omega

/-! ### Lemmas about `is_num_ill_formed` -/

/-- The early-returning character loop of `__is_num_ill_formed` decides a
declarative condition: some character lies in `invalid_chars`, or the
running decimal-point count reaches two.  (The loop tests the counter with
`==`, so the equivalence needs the counter to start at most 1, as it does
at the only call site.) -/
theorem numIllLoop_eq_true_iff (cs : List Char) :
    ∀ count, count ≤ 1 →
      (numIllLoop cs count = true ↔
        ((∃ c ∈ cs, isInvalidNumChar c = true) ∨ 2 ≤ count + cs.count '.')) := by
  induction cs with
  | nil =>
    intro count h
    simp [numIllLoop]
    omega
  | cons c cs ih =>
    intro count h
    by_cases hdot : c = '.'
    · subst hdot
      have hinv : isInvalidNumChar '.' = false := by decide
      have hcount : ('.' :: cs).count '.' = cs.count '.' + 1 := by
        simp [List.count_cons]
      interval_cases count
      · have hstep : numIllLoop ('.' :: cs) 0 = numIllLoop cs 1 := rfl
        rw [hstep, ih 1 (by omega), hcount]
        simp only [List.mem_cons]
        constructor
        · rintro (⟨x, hx, hxi⟩ | hn)
          · exact Or.inl ⟨x, Or.inr hx, hxi⟩
          · exact Or.inr (by omega)
        · rintro (⟨x, hx | hx, hxi⟩ | hn)
          · rw [hx] at hxi
            rw [hinv] at hxi
            exact absurd hxi (by simp)
          · exact Or.inl ⟨x, hx, hxi⟩
          · exact Or.inr (by omega)
      · have hstep : numIllLoop ('.' :: cs) 1 = true := rfl
        rw [hstep]
        exact iff_of_true rfl (Or.inr (by rw [hcount]; omega))
    · have hinvf : isInvalidNumChar c = false ∨ isInvalidNumChar c = true := by
        cases isInvalidNumChar c
        · exact Or.inl rfl
        · exact Or.inr rfl
      have hcount : (c :: cs).count '.' = cs.count '.' := by
        simp [List.count_cons, hdot]
      rcases hinvf with hinvc | hinvc
      · have hcond : numIllLoop (c :: cs) count = numIllLoop cs count := by
          have h2 : ¬ (count = 2) := by omega
          simp [numIllLoop, hdot, hinvc, h2]
        rw [hcond, ih count h, hcount]
        simp only [List.mem_cons]
        constructor
        · rintro (⟨x, hx, hxi⟩ | hn)
          · exact Or.inl ⟨x, Or.inr hx, hxi⟩
          · exact Or.inr hn
        · rintro (⟨x, hx | hx, hxi⟩ | hn)
          · rw [hx] at hxi
            rw [hinvc] at hxi
            exact absurd hxi (by simp)
          · exact Or.inl ⟨x, hx, hxi⟩
          · exact Or.inr hn
      · have hstep : numIllLoop (c :: cs) count = true := by
          simp [numIllLoop, hdot, hinvc]
        rw [hstep]
        exact iff_of_true rfl (Or.inl ⟨c, List.mem_cons_self c cs, hinvc⟩)


/-! ### Claim theorems -/

/-- C8: the Levenshtein edit-distance function used for keyword similarity
is symmetric, and the distance from any string to itself is zero. -/
theorem c8_levenshtein_symm_refl :
    (∀ a b : String, levenshtein a b = levenshtein b a) ∧
    (∀ a : String, levenshtein a a = 0) := by
  constructor
  · intro a b
    unfold levenshtein
    rw [levAuxF_symm a.data b.data _ _ _ le_rfl,
      Nat.add_comm a.data.length b.data.length]
  · intro a
    exact levAuxF_self a.data a.data.length _ le_rfl

/-- C9: `Error.detect` on the empty lexeme passes the identifier-length
and numeric-range checks (both `False`) and then raises `IndexError` in
`__is_string_ill_formed`, which reads `error[0]` with no length guard. -/
theorem c9_detect_empty_raises :
    is_id_too_long "" = false ∧ is_num_exceeding "" = false ∧
    is_string_ill_formed "" = .error .indexError ∧
    detect "" "" = .error .indexError := by decide

/-- C5 (amended): `Error.detect` applies the four checks in fixed priority
order, first match wins; when none of the four conditions holds it returns
the instance's current `error_type` unchanged — the empty string on a
fresh instance, the previously recorded kind on a reused one — not
`None`. -/
theorem c5_detect_priority (st lx : String) :
    (is_id_too_long lx = true →
      detect st lx = .ok "Identifier exceeds 15 characters") ∧
    (is_id_too_long lx = false → is_num_exceeding lx = true →
      detect st lx = .ok "Numeric type exceeds defined range") ∧
    (is_id_too_long lx = false → is_num_exceeding lx = false →
      is_string_ill_formed lx = .ok true →
      detect st lx = .ok "Ill-formed string literal") ∧
    (is_id_too_long lx = false → is_num_exceeding lx = false →
      is_string_ill_formed lx = .ok false → is_num_ill_formed lx = true →
      detect st lx = .ok "Ill-formed numeric type") ∧
    (is_id_too_long lx = false → is_num_exceeding lx = false →
      is_string_ill_formed lx = .ok false → is_num_ill_formed lx = false →
      detect st lx = .ok st) := by
  refine ⟨fun h1 => ?_, fun h1 h2 => ?_, fun h1 h2 h3 => ?_,
    fun h1 h2 h3 h4 => ?_, fun h1 h2 h3 h4 => ?_⟩ <;>
    simp_all [detect]

/-- Witness for C5 (amended), at the numeric-range level of the
priority. -/
theorem c5_detect_priority_witness :
    detect "" "40000" = .ok "Numeric type exceeds defined range" :=
  (c5_detect_priority "" "40000").2.1 (by decide) (by decide)

/-- C5 counterexample: `detect` never returns Python's `None`.  On a
lexeme satisfying none of the four error conditions ("abc") it returns
the instance's pre-existing `error_type` — here the kind recorded by a
previous `detect` call on "1a" — instead of `None`. -/
theorem c5_detect_stale :
    detect "" "1a" = .ok "Ill-formed numeric type" ∧
    is_id_too_long "abc" = false ∧ is_num_exceeding "abc" = false ∧
    is_string_ill_formed "abc" = .ok false ∧ is_num_ill_formed "abc" = false ∧
    detect "Ill-formed numeric type" "abc" = .ok "Ill-formed numeric type" := by
  decide

/-- C6 (amended): the IllFormedNumber condition holds iff the lexeme
contains a digit and either contains a character of the fixed set
`invalid_chars` (ASCII letters, ASCII punctuation other than the decimal
point, or whitespace) or contains two or more decimal points.  Whitespace
characters trigger the condition; characters outside those ASCII sets
(for instance an accented letter) never do. -/
theorem c6_num_ill_formed_iff (s : String) :
    is_num_ill_formed s = true ↔
      ((∃ c ∈ s.data, pyIsDigit c = true) ∧
        ((∃ c ∈ s.data, isInvalidNumChar c = true) ∨ 2 ≤ s.data.count '.')) := by
  unfold is_num_ill_formed
  by_cases h : s.data.any pyIsDigit = true
  · rw [if_pos h, numIllLoop_eq_true_iff s.data 0 (by omega)]
    rw [List.any_eq_true] at h
    simp only [Nat.zero_add]
    constructor
    · intro hx
      exact ⟨h, hx⟩
    · intro hx
      exact hx.2
  · rw [if_neg h]
    rw [List.any_eq_true] at h
    constructor
    · intro hx
      exact absurd hx (by simp)
    · intro hx
      exact absurd hx.1 h

/-- C6 counterexample: the lexeme made of the digit 1 followed by an
accented letter contains a character outside `[0-9.]` that is not
whitespace, so the spec's reading of IllFormedNumber holds of it, but the
source's check is `False` on it: the accented letter lies outside the
ASCII-only `invalid_chars`. -/
theorem c6_counterexample :
    specIllFormedNumber "1é" = true ∧ is_num_ill_formed "1é" = false := by
  decide

/-- C1: `gen_tokens` does not run every input to completion.  On the
input "@" the lexeme fails every classification, `detect` attaches no
kind, `recover` returns the lexeme unchanged as a string, and the
statement `lexeme = lexemes[corrected_lexeme]` indexes the lexeme list
with that string, raising `TypeError` — the error surfaces instead of the
lexeme being silently dropped. -/
theorem c1_recover_string_raises :
    recover "@" ["@"] = .ok (.str "@") ∧
    gen_tokens "@" = .error .typeError := by decide

/-- C2: panic-mode recovery does not resume after the synchronisation
semicolon.  On the spec's own end-to-end input the ill-formed string
lexeme takes the phrase-level branch and the repaired string raises
`TypeError`; on an input whose offending lexeme takes the panic branch,
`recover` returns semicolon index 2, yet the tokens of the supposedly
skipped span ("y" at index 1 and ";" at index 2) are still emitted,
because assigning to the loop variable does not move the iteration. -/
theorem c2_no_skip :
    gen_tokens "x = 5 ; y = \"hello ;" = .error .typeError ∧
    recover "1a" ["1a", "y", ";", "x", ";"] = .ok (.idx 2) ∧
    gen_tokens "1a y ; x ;" =
      .ok [⟨.id, .str "y"⟩, ⟨.sepr, .str ";"⟩, ⟨.id, .str "x"⟩,
        ⟨.sepr, .str ";"⟩] := by decide

/-- C4 counterexample: on the input "calss x" the lexeme "calss" is NOT
routed to error recovery: it passes `is_identifier` (its edit distance to
every keyword exceeds 1) and is classified as an Identifier token. -/
theorem c4_counterexample :
    is_identifier "calss" = true ∧
    processLexeme ["calss", "x"] "calss" = .ok [⟨.id, .str "calss"⟩] := by
  decide

/-- C4 (amended): on the input "calss x" the lexeme "calss" is classified
as an Identifier token rather than being routed to error recovery: its
Levenshtein distance to every keyword (including "class", at distance 2)
exceeds the similarity threshold 1, so it passes the identifier checks
and the scanner emits Identifier tokens for both lexemes. -/
theorem c4_calss_identifier :
    levenshtein "calss" "class" = 2 ∧
    (∀ kw ∈ KEYWORDS, 1 < levenshtein "calss" kw) ∧
    gen_tokens "calss x" = .ok [⟨.id, .str "calss"⟩, ⟨.id, .str "x"⟩] := by
  decide

/-! ### Helper lemmas for the classification chain -/

theorem headIs_iff (s : String) (c : Char) :
    headIs s c = true ↔ ∃ t, s.data = c :: t := by
  unfold headIs
  cases hd : s.data with
  | nil => simp
  | cons a t =>
    constructor
    · intro h
      have ha : a = c := by simpa using h
      exact ⟨t, by rw [ha]⟩
    · rintro ⟨t', ht'⟩
      injection ht' with h1 h2
      subst h1
      simp

theorem lastIs_iff (s : String) (c : Char) :
    lastIs s c = true ↔ s.data.getLast? = some c := by
  unfold lastIs
  cases hl : s.data.getLast? with
  | none => simp
  | some a =>
    constructor
    · intro h
      have ha : a = c := by simpa using h
      rw [ha]
    · intro h
      injection h with h1
      subst h1
      simp

theorem getLastD_mem_of_ne_nil (ds : List Char) (c : Char) (h : ds ≠ []) :
    ds.getLastD c ∈ ds := by
  induction ds generalizing c with
  | nil => exact absurd rfl h
  | cons a l ih =>
    have hstep : (a :: l).getLastD c = l.getLastD a := by
      cases l <;> simp [List.getLastD]
    rw [hstep]
    cases hl : l with
    | nil => simp [List.getLastD]
    | cons b t =>
      have htl := ih a (by simp [hl])
      rw [hl] at htl
      exact List.mem_cons_of_mem a htl

theorem dropWhile_append_single (p : Char → Bool) (l : List Char) (c : Char)
    (hc : p c = false) :
    (l ++ [c]).dropWhile p = l.dropWhile p ++ [c] := by
  induction l with
  | nil => simp [List.dropWhile_cons, hc]
  | cons a l ih =>
    by_cases ha : p a = true
    · simp [List.dropWhile_cons, ha, ih]
    · have ha' : p a = false := by revert ha; cases p a <;> simp
      simp [List.dropWhile_cons, ha']

theorem stripPyWs_cons_head (c : Char) (t : List Char) (hc : isWs c = false) :
    ∃ t', stripPyWs (c :: t) = c :: t' := by
  unfold stripPyWs
  rw [List.dropWhile_cons, if_neg (by simp [hc])]
  rw [List.reverse_cons, dropWhile_append_single isWs t.reverse c hc]
  exact ⟨(t.reverse.dropWhile isWs).reverse, by simp⟩

theorem dropWhile_eq_self_of_all (p : Char → Bool) (l : List Char)
    (h : ∀ c ∈ l, p c = false) : l.dropWhile p = l := by
  cases l with
  | nil => rfl
  | cons a t =>
    rw [List.dropWhile_cons, if_neg (by simp [h a (List.mem_cons_self a t)])]

theorem stripPyWs_eq_self (l : List Char) (h : ∀ c ∈ l, isWs c = false) :
    stripPyWs l = l := by
  unfold stripPyWs
  rw [dropWhile_eq_self_of_all isWs l h,
    dropWhile_eq_self_of_all isWs l.reverse (fun c hc => h c (List.mem_reverse.mp hc)),
    List.reverse_reverse]

theorem pyFloatParse_none_of_head (s : String) (c : Char) (t : List Char)
    (hd : s.data = c :: t) (hws : isWs c = false) (hm : c ≠ '-') (hp : c ≠ '+')
    (hdig : pyIsDigit c = false) (hdot : c ≠ '.') :
    pyFloatParse s = none := by
  obtain ⟨t', ht⟩ := stripPyWs_cons_head c t hws
  unfold pyFloatParse
  rw [hd, ht]
  have hmant : parseMant (c :: t') = none := by
    unfold parseMant
    rw [List.takeWhile_cons, if_neg (by simp [hdig]),
      List.dropWhile_cons, if_neg (by simp [hdig])]
    simp [hdot]
  simp [hm, hp, hmant]

theorem pyIntParse_none_of_head (s : String) (c : Char) (t : List Char)
    (hd : s.data = c :: t) (hws : isWs c = false) (hm : c ≠ '-') (hp : c ≠ '+')
    (hdig : pyIsDigit c = false) :
    pyIntParse s = none := by
  obtain ⟨t', ht⟩ := stripPyWs_cons_head c t hws
  unfold pyIntParse
  rw [hd, ht]
  simp [hm, hp, hdig]

theorem not_mem_keywords_of_head (r : String) (h : isIdStart (r.data.headD ' ') = false) :
    r ∉ KEYWORDS := by
  intro hm
  simp only [KEYWORDS] at hm
  fin_cases hm <;> revert h <;> decide

theorem operators_head (r : String) (hm : r ∈ OPERATORS) :
    r.data.headD ' ' ∈ ['+', '-', '*', '/', '=', '!', '<', '>'] := by
  simp only [OPERATORS] at hm
  fin_cases hm <;> decide

theorem punctuations_head (r : String) (hm : r ∈ PUNCTUATIONS) :
    r.data.headD ' ' ∈ [';', ',', '(', ')', '\x7b', '\x7d'] := by
  simp only [PUNCTUATIONS] at hm
  fin_cases hm <;> decide

theorem doError_ok_nil (l : String) (lxs : List String) (ts : List Token)
    (h : doError l lxs = .ok ts) : ts = [] := by
  unfold doError at h
  cases hdet : detect "" l with
  | error e =>
    rw [hdet] at h
    exact absurd h (by simp)
  | ok v =>
    rw [hdet] at h
    cases hrec : recover l lxs with
    | error e =>
      rw [hrec] at h
      exact absurd h (by simp)
    | ok rr =>
      rw [hrec] at h
      cases rr with
      | none =>
        simp only [Except.ok.injEq] at h
        exact h.symm
      | idx i =>
        simp only [] at h
        by_cases hi : i < lxs.length
        · rw [if_pos hi] at h
          simp only [Except.ok.injEq] at h
          exact h.symm
        · rw [if_neg hi] at h
          exact absurd h (by simp)
      | str r =>
        exact absurd h (by simp)


/-! ### Lemmas for the identifier classification claim -/

theorem is_similar_false_iff (s : String) :
    is_similar_to_keyword s = false ↔ ∀ kw ∈ KEYWORDS, 1 < levenshtein s kw := by
  unfold is_similar_to_keyword
  rw [← Bool.not_eq_true, List.any_eq_true]
  push_neg
  constructor
  · intro h kw hkw
    simpa using h kw hkw
  · intro h kw hkw
    simpa using h kw hkw

theorem is_identifier_true_iff (s : String) :
    is_identifier s = true ↔
      (matchIdPattern s = true ∧ s ∉ KEYWORDS ∧
        is_similar_to_keyword s = false ∧ s.length < 15) := by
  unfold is_identifier
  split_ifs with h1 h2 h3 h4
  · simp [h2]
  · simp [h3]
  · constructor
    · intro habs
      exact absurd habs (by simp)
    · rintro ⟨_, _, _, hlen⟩
      exact absurd hlen (by omega)
  · constructor
    · intro _
      refine ⟨h1, h2, ?_, ?_⟩
      · revert h3
        cases is_similar_to_keyword s <;> simp
      · omega
    · intro _
      rfl
  · constructor
    · intro habs
      exact absurd habs (by simp)
    · rintro ⟨hpat, _, _, _⟩
      exact absurd hpat h1

theorem isIdStart_not_digit (c : Char) (h : isIdStart c = true) :
    pyIsDigit c = false := by
  unfold isIdStart isAsciiLetter isAsciiUpper isAsciiLower at h
  unfold pyIsDigit
  simp only [Bool.or_eq_true, Bool.and_eq_true, decide_eq_true_eq] at h
  rw [← Bool.not_eq_true]
  simp only [Bool.and_eq_true, decide_eq_true_eq, not_and, not_le]
  intro h48
  omega

theorem dropWhile_eq_nil_of_all (p : Char → Bool) (l : List Char)
    (h : ∀ c ∈ l, p c = true) : l.dropWhile p = [] := by
  induction l with
  | nil => rfl
  | cons a t ih =>
    rw [List.dropWhile_cons, if_pos (by simp [h a (List.mem_cons_self a t)])]
    exact ih fun c hc => h c (List.mem_cons_of_mem a hc)

theorem is_func_call_none_of_head (s : String) (c : Char) (t : List Char)
    (hd : s.data = c :: t) (h : isIdStart c = false) : is_func_call s = none := by
  unfold is_func_call
  rw [hd]
  simp [h]

theorem is_func_call_none_of_idpattern (s : String) (h : matchIdPattern s = true) :
    is_func_call s = none := by
  unfold matchIdPattern at h
  cases hd : s.data with
  | nil =>
    rw [hd] at h
    exact absurd h (by simp)
  | cons c cs =>
    rw [hd] at h
    simp only [Bool.and_eq_true] at h
    obtain ⟨hstart, hall⟩ := h
    unfold is_func_call
    rw [hd]
    have hdrop : cs.dropWhile isIdBody = [] :=
      dropWhile_eq_nil_of_all isIdBody cs fun x hx =>
        (List.all_eq_true.mp hall) x hx
    simp [hstart, hdrop]

theorem is_float_false_of_no_dot (s : String) (h : '.' ∉ s.data) :
    is_float s = false := by
  unfold is_float
  have hc : s.data.contains '.' = false := by
    rw [← Bool.not_eq_true]
    intro hc
    exact h (List.elem_iff.mp hc)
  rw [hc, Bool.and_false]

/-- C3: for every lexeme matching the identifier pattern, the scanner
emits an Identifier token for it iff it is not an exact keyword, not
within Levenshtein distance 1 of any keyword, and shorter than
MAX_ID_LENGTH = 15 characters. -/
theorem c3_identifier_iff (s : String) (lexs : List String)
    (h : matchIdPattern s = true) :
    processLexeme lexs s = .ok [⟨.id, .str s⟩] ↔
      (s ∉ KEYWORDS ∧ (∀ kw ∈ KEYWORDS, 1 < levenshtein s kw) ∧
        s.length < 15) := by
  obtain ⟨c, cs, hd, hstart, hall⟩ :
      ∃ c cs, s.data = c :: cs ∧ isIdStart c = true ∧ cs.all isIdBody = true := by
    unfold matchIdPattern at h
    cases hd : s.data with
    | nil =>
      rw [hd] at h
      exact absurd h (by simp)
    | cons c cs =>
      rw [hd] at h
      simp only [Bool.and_eq_true] at h
      exact ⟨c, cs, rfl, h.1, h.2⟩
  have hop : s ∉ OPERATORS := by
    intro hm
    simp only [OPERATORS] at hm
    fin_cases hm <;> revert h <;> decide
  have hpunct : s ∉ PUNCTUATIONS := by
    intro hm
    simp only [PUNCTUATIONS] at hm
    fin_cases hm <;> revert h <;> decide
  have hdig : pyIsdigitStr s = false := by
    unfold pyIsdigitStr
    rw [hd]
    simp [isIdStart_not_digit c hstart]
  have hdot : '.' ∉ s.data := by
    rw [hd]
    intro hmem
    rcases List.mem_cons.mp hmem with h1 | h1
    · rw [← h1] at hstart
      exact absurd hstart (by decide)
    · have hb := (List.all_eq_true.mp hall) '.' h1
      exact absurd hb (by decide)
  have hfl : is_float s = false := is_float_false_of_no_dot s hdot
  have hlit : headIs s '"' = false := by
    rw [← Bool.not_eq_true, headIs_iff]
    rintro ⟨t', ht'⟩
    rw [hd] at ht'
    injection ht' with h1 h2
    rw [h1] at hstart
    exact absurd hstart (by decide)
  unfold processLexeme
  rw [is_func_call_none_of_idpattern s h]
  unfold classifyBare
  by_cases hkw : s ∈ KEYWORDS
  · rw [if_pos hkw]
    constructor
    · intro habs
      simp only [Except.ok.injEq, List.cons.injEq, Token.mk.injEq] at habs
      exact absurd habs.1.1 (by decide)
    · rintro ⟨hk, _, _⟩
      exact absurd hkw hk
  · rw [if_neg hkw]
    by_cases hid : is_identifier s = true
    · rw [if_pos hid]
      obtain ⟨_, _, hsim, hlen⟩ := (is_identifier_true_iff s).mp hid
      constructor
      · intro _
        exact ⟨hkw, (is_similar_false_iff s).mp hsim, hlen⟩
      · intro _
        rfl
    · rw [if_neg hid, if_neg (by simp [hop]), if_neg (by simp [hpunct]),
        if_neg (by simp [hdig]), if_neg (by simp [hfl]),
        if_neg (by simp [hlit])]
      constructor
      · intro habs
        have hnil := doError_ok_nil s lexs _ habs
        exact absurd hnil (by simp)
      · rintro ⟨hk, hsim, hlen⟩
        exfalso
        exact hid ((is_identifier_true_iff s).mpr
          ⟨h, hk, (is_similar_false_iff s).mpr hsim, hlen⟩)

/-- Witness for C3 at the lexeme "hello". -/
theorem c3_identifier_iff_witness :
    processLexeme ["hello"] "hello" = .ok [⟨.id, .str "hello"⟩] ↔
      ("hello" ∉ KEYWORDS ∧ (∀ kw ∈ KEYWORDS, 1 < levenshtein "hello" kw) ∧
        ("hello" : String).length < 15) :=
  c3_identifier_iff "hello" ["hello"] (by decide)


/-! ### Lemmas for the string-repair claim -/

theorem classifyBare_dquote (r : String) (h1 : headIs r '"' = true)
    (h2 : lastIs r '"' = true) :
    classifyBare r = some ⟨.lit, .str (pyStripChar '"' r)⟩ := by
  obtain ⟨t, hd⟩ := (headIs_iff r '"').mp h1
  have hq0 : isIdStart '"' = false := by decide
  have hkw : r ∉ KEYWORDS := by
    refine not_mem_keywords_of_head r ?_
    rw [hd]
    simp only [List.headD_cons]
    decide
  have hpat : matchIdPattern r = false := by
    unfold matchIdPattern
    rw [hd]
    simp [hq0]
  have hid : is_identifier r = false := by
    unfold is_identifier
    rw [if_neg (by simp [hpat])]
  have hop : r ∉ OPERATORS := by
    intro hm
    have hh := operators_head r hm
    rw [hd] at hh
    simp only [List.headD_cons] at hh
    revert hh
    decide
  have hpunct : r ∉ PUNCTUATIONS := by
    intro hm
    have hh := punctuations_head r hm
    rw [hd] at hh
    simp only [List.headD_cons] at hh
    revert hh
    decide
  have hdig : pyIsdigitStr r = false := by
    unfold pyIsdigitStr
    rw [hd]
    simp [(by decide : pyIsDigit '"' = false)]
  have hfl : is_float r = false := by
    unfold is_float
    rw [pyFloatParse_none_of_head r '"' t hd (by decide) (by decide) (by decide)
      (by decide) (by decide)]
    rfl
  unfold classifyBare
  rw [if_neg hkw, if_neg (by simp [hid]), if_neg hop, if_neg hpunct,
    if_neg (by simp [hdig]), if_neg (by simp [hfl]), if_pos (by simp [h1, h2])]

/-- C7 (amended): for every lexeme detected as an ill-formed string
literal whose first or last character is the double quote, the
phrase-level quote repair yields a lexeme that begins and ends with a
double quote, and re-running the bare-lexeme classification on it yields
a Literal token whose value is the repaired lexeme with all leading and
trailing double quotes stripped. -/
theorem c7_repair_roundtrip (s : String) (hill : is_string_ill_formed s = .ok true)
    (hq : headIs s '"' = true ∨ lastIs s '"' = true) :
    ∃ r, quote_repair s = .ok r ∧ headIs r '"' = true ∧ lastIs r '"' = true ∧
      classifyBare r = some ⟨.lit, .str (pyStripChar '"' r)⟩ := by
  have hsne : s.data ≠ [] := by
    intro hnil
    unfold is_string_ill_formed at hill
    rw [hnil] at hill
    exact absurd hill (by simp)
  have hcond : (headIs s '"' || lastIs s '"') = true := by
    rcases hq with hx | hx <;> simp [hx]
  by_cases hh : headIs s '"' = true
  · by_cases hl : lastIs s '"' = true
    · refine ⟨s, ?_, hh, hl, classifyBare_dquote s hh hl⟩
      unfold quote_repair
      rw [if_pos hcond]
      simp [hh, hl]
    · have hl' : lastIs s '"' = false := by
        revert hl
        cases lastIs s '"' <;> simp
      obtain ⟨t, ht⟩ := (headIs_iff s '"').mp hh
      have hrd : (String.mk (s.data ++ ['"'])).data = '"' :: (t ++ ['"']) := by
        show s.data ++ ['"'] = '"' :: (t ++ ['"'])
        rw [ht]
        rfl
      have hrh : headIs (String.mk (s.data ++ ['"'])) '"' = true :=
        (headIs_iff _ '"').mpr ⟨t ++ ['"'], hrd⟩
      have hrl : lastIs (String.mk (s.data ++ ['"'])) '"' = true := by
        rw [lastIs_iff]
        exact List.getLast?_concat s.data
      refine ⟨String.mk (s.data ++ ['"']), ?_, hrh, hrl,
        classifyBare_dquote _ hrh hrl⟩
      unfold quote_repair
      rw [if_pos hcond]
      simp [hh, hl']
  · have hh' : headIs s '"' = false := by
      revert hh
      cases headIs s '"' <;> simp
    have hl : lastIs s '"' = true := by
      rcases hq with hx | hx
      · exact absurd hx hh
      · exact hx
    obtain ⟨d, t, hdt⟩ : ∃ d t, s.data = d :: t := by
      cases hsd : s.data with
      | nil => exact absurd hsd hsne
      | cons d t => exact ⟨d, t, rfl⟩
    have hrh : headIs (String.mk ('"' :: s.data)) '"' = true :=
      (headIs_iff _ '"').mpr ⟨s.data, rfl⟩
    have hrl : lastIs (String.mk ('"' :: s.data)) '"' = true := by
      rw [lastIs_iff]
      show ('"' :: s.data).getLast? = some '"'
      rw [hdt, List.getLast?_cons_cons, ← hdt]
      exact (lastIs_iff s '"').mp hl
    refine ⟨String.mk ('"' :: s.data), ?_, hrh, hrl,
      classifyBare_dquote _ hrh hrl⟩
    unfold quote_repair
    rw [if_pos hcond]
    simp [hh', hrl]

/-- Witness for C7 (amended) at the lexeme consisting of a double quote
followed by abc. -/
theorem c7_repair_roundtrip_witness :
    ∃ r, quote_repair "\"abc" = .ok r ∧ headIs r '"' = true ∧
      lastIs r '"' = true ∧
      classifyBare r = some ⟨.lit, .str (pyStripChar '"' r)⟩ :=
  c7_repair_roundtrip "\"abc" (by decide) (Or.inl (by decide))

/-- C7 counterexample: a lone single quote is detected as an ill-formed
string literal, the quote repair returns it unchanged, and
re-classification yields no token at all (the literal branch accepts only
double quotes); and for a lexeme with a doubled boundary quote the
emitted Literal value is the strip of ALL boundary quotes, not the text
between the outermost pair. -/
theorem c7_counterexample :
    (is_string_ill_formed "'" = .ok true ∧
      detect "" "'" = .ok "Ill-formed string literal" ∧
      quote_repair "'" = .ok "'" ∧ classifyBare "'" = none) ∧
    (is_string_ill_formed "\"\"a" = .ok true ∧
      quote_repair "\"\"a" = .ok "\"\"a\"" ∧
      classifyBare "\"\"a\"" = some ⟨.lit, .str "a"⟩ ∧
      pyStripChar '"' "\"\"a\"" = "a" ∧ ("a" : String) ≠ "\"a") := by decide


/-! ### Lemmas for the signed-integer claim -/

/-- C10: a lexeme made of a sign followed by digits is never emitted as an
IntegerOperand token: `isdigit` rejects it, it fails every other
classification including the function-call and float shapes, and it falls
to the error path, where — whenever its value lies inside the integer
range — the sign character makes `detect` report an ill-formed number. -/
theorem c10_signed_integer (s : String) (lexs : List String) (v : Int)
    (hs : isSignDigits s = true) (hv : pyIntParse s = some v)
    (hlo : -32768 ≤ v) (hhi : v ≤ 32767) :
    is_func_call s = none ∧ classifyBare s = none ∧
    (∀ ts, processLexeme lexs s = .ok ts → ts = []) ∧
    detect "" s = .ok "Ill-formed numeric type" := by
  obtain ⟨c, ds, hd, hsign, hne, hdig⟩ :
      ∃ c ds, s.data = c :: ds ∧ (c = '-' ∨ c = '+') ∧ ds ≠ [] ∧
        ∀ x ∈ ds, pyIsDigit x = true := by
    unfold isSignDigits at hs
    cases hdd : s.data with
    | nil =>
      rw [hdd] at hs
      exact absurd hs (by simp)
    | cons c ds =>
      rw [hdd] at hs
      simp only [Bool.and_eq_true, Bool.or_eq_true, decide_eq_true_eq,
        List.all_eq_true] at hs
      refine ⟨c, ds, rfl, hs.1, ?_, hs.2.2⟩
      intro hdsnil
      have hcontra := hs.2.1
      rw [hdsnil] at hcontra
      simp at hcontra
  have hstart : isIdStart c = false := by
    rcases hsign with rfl | rfl <;> decide
  have hcdig : pyIsDigit c = false := by
    rcases hsign with rfl | rfl <;> decide
  have hfc : is_func_call s = none := is_func_call_none_of_head s c ds hd hstart
  have hpat : matchIdPattern s = false := by
    unfold matchIdPattern
    rw [hd]
    simp [hstart]
  have hkw : s ∉ KEYWORDS := by
    refine not_mem_keywords_of_head s ?_
    rw [hd]
    simp only [List.headD_cons]
    exact hstart
  have hid : is_identifier s = false := by
    unfold is_identifier
    rw [if_neg (by simp [hpat])]
  have hop : s ∉ OPERATORS := by
    intro hm
    simp only [OPERATORS] at hm
    fin_cases hm <;> revert hs <;> decide
  have hpunct : s ∉ PUNCTUATIONS := by
    intro hm
    simp only [PUNCTUATIONS] at hm
    fin_cases hm <;> revert hs <;> decide
  have hdigs : pyIsdigitStr s = false := by
    unfold pyIsdigitStr
    rw [hd]
    simp [hcdig]
  have hdotnm : '.' ∉ s.data := by
    rw [hd]
    intro hmem
    rcases List.mem_cons.mp hmem with h1 | h1
    · have hxx : ('.' : Char) = '-' ∨ ('.' : Char) = '+' := by
        rw [h1]
        exact hsign
      rcases hxx with hx | hx <;> exact absurd hx (by decide)
    · have hb := hdig '.' h1
      exact absurd hb (by decide)
  have hfl : is_float s = false := is_float_false_of_no_dot s hdotnm
  have hexc : is_num_exceeding s = false := by
    have e1 : decide (v < -32768) = false := decide_eq_false (by omega)
    have e2 : decide (32767 < v) = false := decide_eq_false (by omega)
    simp [is_num_exceeding, hfl, is_integer, hv, e1, e2]
  have hitl : is_id_too_long s = false := by
    unfold is_id_too_long
    simp [hpat]
  have hlastmem := getLastD_mem_of_ne_nil ds c hne
  have hlastdig := hdig _ hlastmem
  have hsif : is_string_ill_formed s = .ok false := by
    unfold is_string_ill_formed
    rw [hd]
    have e1 : decide (c = '"') = false := by
      rcases hsign with rfl | rfl <;> decide
    have e2 : decide (c = '\'') = false := by
      rcases hsign with rfl | rfl <;> decide
    have e3 : decide (ds.getLastD c = '"') = false := decide_eq_false (by
      intro hx
      rw [hx] at hlastdig
      exact absurd hlastdig (by decide))
    have e4 : decide (ds.getLastD c = '\'') = false := decide_eq_false (by
      intro hx
      rw [hx] at hlastdig
      exact absurd hlastdig (by decide))
    simp only [e1, e2, e3, e4, Bool.or_self, Bool.false_or, Bool.or_false]
    rfl
  have hanydig : s.data.any pyIsDigit = true := by
    rw [List.any_eq_true]
    obtain ⟨x, hx⟩ : ∃ x, x ∈ ds := by
      cases ds with
      | nil => exact absurd rfl hne
      | cons a l => exact ⟨a, List.mem_cons_self a l⟩
    refine ⟨x, ?_, hdig x hx⟩
    rw [hd]
    exact List.mem_cons_of_mem c hx
  have hnum : is_num_ill_formed s = true := by
    unfold is_num_ill_formed
    rw [if_pos hanydig, numIllLoop_eq_true_iff s.data 0 (by omega)]
    left
    refine ⟨c, ?_, ?_⟩
    · rw [hd]
      exact List.mem_cons_self c ds
    · rcases hsign with rfl | rfl <;> decide
  have hlith : headIs s '"' = false := by
    rw [← Bool.not_eq_true, headIs_iff]
    rintro ⟨t', ht'⟩
    rw [hd] at ht'
    injection ht' with hx _
    have hxx : ('"' : Char) = '-' ∨ ('"' : Char) = '+' := by
      rw [← hx]
      exact hsign
    rcases hxx with hy | hy <;> exact absurd hy (by decide)
  have hcb : classifyBare s = none := by
    unfold classifyBare
    rw [if_neg hkw, if_neg (by simp [hid]), if_neg hop, if_neg hpunct,
      if_neg (by simp [hdigs]), if_neg (by simp [hfl]),
      if_neg (by simp [hlith])]
  have hdet : detect "" s = .ok "Ill-formed numeric type" := by
    simp [detect, hitl, hexc, hsif, hnum]
  refine ⟨hfc, hcb, ?_, hdet⟩
  intro ts hts
  unfold processLexeme at hts
  rw [hfc, hcb] at hts
  exact doError_ok_nil s lexs ts hts

/-- Witness for C10 at the lexeme "-5". -/
theorem c10_signed_integer_witness :
    is_func_call "-5" = none ∧ classifyBare "-5" = none ∧
    (∀ ts, processLexeme ["-5"] "-5" = .ok ts → ts = []) ∧
    detect "" "-5" = .ok "Ill-formed numeric type" :=
  c10_signed_integer "-5" ["-5"] (-5) (by decide) (by decide) (by decide)
    (by decide)

end LexEH
